import Mathlib

/-!
Shallow embedding of the QRBasedClassReminder repository, used to check the
natural-language specification against the code.

Conventions:
* timestamps (JS `Date` values / `expiresAt` columns) are `Int` millisecond counts;
  `new Date()` at the moment of a call is passed in as an explicit `now : Int`;
* a database table is a `List` of row records; Prisma `deleteMany`/`findMany`
  calls become `List.filter` / `List.find?` over that list;
* JS `null`/`undefined` field values are `Option.none`;
* a JS function that can throw is embedded as a function into `Except`.
-/

namespace QRClassReminder

/-! ### Generic list helpers -/

/-- Splitting a list by a boolean predicate is a partition of its length. -/
theorem length_filter_add_length_filter_not {α} (l : List α) (p : α → Bool) :
    (l.filter p).length + (l.filter (fun a => !(p a))).length = l.length := by
  induction l with
  | nil => rfl
  | cons a t ih =>
    simp only [List.filter_cons]
    cases h : p a <;> simp [h] <;> omega

/-! ### JS string primitives
(kernel-computable models of the JS string methods the code uses) -/

/-- JS `String.prototype.trim` on the character list: strip whitespace from
both ends. -/
def jsTrimList (cs : List Char) : List Char :=
  ((cs.dropWhile Char.isWhitespace).reverse.dropWhile Char.isWhitespace).reverse

/-- JS `String.prototype.trim`. -/
def jsTrim (s : String) : String :=
  ⟨jsTrimList s.toList⟩

/-- JS `String.prototype.toLowerCase` (ASCII model). -/
def jsToLower (s : String) : String :=
  ⟨s.toList.map Char.toLower⟩

/-- JS `String.prototype.startsWith`. -/
def strStartsWith (s p : String) : Bool :=
  p.toList.isPrefixOf s.toList

/-! ### Admin session model
(`backend/auth-service/repositories/adminSessionRepository.js`) -/

/-- One row of the `admin_sessions` table, restricted to the columns the
session-lifecycle operations read. -/
structure AdminSession where
  id : String
  adminId : String
  expiresAt : Int
  createdAt : Int
  ipAddress : Option String
  deriving Repr, DecidableEq

/-- The `admin_sessions` table. -/
abbrev SessionStore := List AdminSession

namespace AdminSessionRepo

/-- `findById`: Prisma `findUnique({ where: { id } })` over the table. -/
def findById (store : SessionStore) (sessionId : String) : Option AdminSession :=
  store.find? (fun s => s.id == sessionId)

/-- `isSessionValid`: looks the session up by id and computes
`new Date(session.expiresAt) > new Date()`; a missing session yields `false`.
(The `catch` branch of the source is embedded separately in `isSessionValidE`.) -/
def isSessionValid (store : SessionStore) (sessionId : String) (now : Int) : Bool :=
  match findById store sessionId with
  | none => false
  | some session => decide (session.expiresAt > now)

/-- A failure thrown by the database layer (`findById` rethrows it transformed). -/
inductive DbFailure where
  | failure (message : String)
  deriving Repr, DecidableEq

/-- `isSessionValid` with its `try/catch` made explicit: the underlying lookup
either fails or yields an optional session.  The source `catch` block logs the
error and executes `return false`, so a failed lookup becomes `.ok false`. -/
def isSessionValidE (lookup : Except DbFailure (Option AdminSession)) (now : Int) :
    Except DbFailure Bool :=
  match lookup with
  | .error _ => .ok false
  | .ok none => .ok false
  | .ok (some session) => .ok (decide (session.expiresAt > now))

/-- `validateSessionIP` with its `try/catch` made explicit: a failed lookup is
caught, logged and turned into `return false`; a missing session yields `false`;
a session with no stored IP yields `true`; otherwise the stored IP is compared
with the current request IP. -/
def validateSessionIP (lookup : Except DbFailure (Option AdminSession))
    (currentIP : String) : Except DbFailure Bool :=
  match lookup with
  | .error _ => .ok false
  | .ok none => .ok false
  | .ok (some session) =>
    match session.ipAddress with
    | none => .ok true
    | some storedIP => .ok (storedIP == currentIP)

/-- `cleanupExpiredSessions`: Prisma `deleteMany({ where: { expiresAt: { lt: now } } })`.
Returns the table after deletion together with the reported `deletedCount`. -/
def cleanupExpiredSessions (store : SessionStore) (now : Int) : SessionStore × Nat :=
  let remaining := store.filter (fun s => !(decide (s.expiresAt < now)))
  let deleted := store.filter (fun s => decide (s.expiresAt < now))
  (remaining, deleted.length)

/-- `invalidateAllSessions`: Prisma `deleteMany({ where: { adminId } })`.
Returns the table after deletion together with the reported `deletedCount`. -/
def invalidateAllSessions (store : SessionStore) (adminId : String) : SessionStore × Nat :=
  let remaining := store.filter (fun s => !(s.adminId == adminId))
  let deleted := store.filter (fun s => s.adminId == adminId)
  (remaining, deleted.length)

/-- Stable insertion step for `orderBy: { createdAt: "desc" }`. -/
def insertByCreatedAtDesc (s : AdminSession) : List AdminSession → List AdminSession
  | [] => [s]
  | t :: ts =>
    if s.createdAt ≤ t.createdAt then t :: insertByCreatedAtDesc s ts
    else s :: t :: ts

/-- `orderBy: { createdAt: "desc" }` of the Prisma query, as insertion sort. -/
def sortByCreatedAtDesc : List AdminSession → List AdminSession
  | [] => []
  | s :: ss => insertByCreatedAtDesc s (sortByCreatedAtDesc ss)

/-- The `counts` object returned by `getAdminSessions`. -/
structure SessionCounts where
  total : Nat
  active : Nat
  expired : Nat
  deriving Repr, DecidableEq

/-- `getAdminSessions`: builds the `where` clause (`adminId`, and
`expiresAt > now` unless `includeExpired`), fetches matching rows ordered by
`createdAt` descending, then classifies them into active (`expiresAt > now`)
and expired (`expiresAt <= now`) and reports the three counts. -/
def getAdminSessions (store : SessionStore) (adminId : String)
    (includeExpired : Bool) (now : Int) : List AdminSession × SessionCounts :=
  let matching := store.filter
    (fun s => s.adminId == adminId && (includeExpired || decide (s.expiresAt > now)))
  let sessions := sortByCreatedAtDesc matching
  let activeSessions := sessions.filter (fun s => decide (s.expiresAt > now))
  let expiredSessions := sessions.filter (fun s => decide (s.expiresAt ≤ now))
  (sessions, ⟨sessions.length, activeSessions.length, expiredSessions.length⟩)

theorem mem_insertByCreatedAtDesc (a s : AdminSession) (l : List AdminSession) :
    a ∈ insertByCreatedAtDesc s l ↔ a = s ∨ a ∈ l := by
  induction l with
  | nil => simp [insertByCreatedAtDesc]
  | cons t ts ih =>
    by_cases h : s.createdAt ≤ t.createdAt
    · simp only [insertByCreatedAtDesc, if_pos h, List.mem_cons, ih]
      tauto
    · simp only [insertByCreatedAtDesc, if_neg h, List.mem_cons]

theorem mem_sortByCreatedAtDesc (a : AdminSession) (l : List AdminSession) :
    a ∈ sortByCreatedAtDesc l ↔ a ∈ l := by
  induction l with
  | nil => simp [sortByCreatedAtDesc]
  | cons s ss ih =>
    simp only [sortByCreatedAtDesc, mem_insertByCreatedAtDesc, ih, List.mem_cons]

end AdminSessionRepo

/-! ### Password reset model
(`backend/auth-service/repositories/passwordResetRepository.js`) -/

/-- One row of the `password_resets` table, restricted to the columns the
repository reads. -/
structure PasswordReset where
  id : String
  adminId : String
  email : String
  token : String
  expiresAt : Int
  isUsed : Bool
  createdAt : Int
  deriving Repr, DecidableEq

/-- The `password_resets` table. -/
abbrev ResetStore := List PasswordReset

namespace PasswordResetRepo

/-- `createPasswordReset`: first Prisma `deleteMany({ where: { adminId } })`
removes every existing reset row of that admin, then `create` appends the new
validated row.  Returns the table after both steps and the created row. -/
def createPasswordReset (store : ResetStore) (resetData : PasswordReset) :
    ResetStore × PasswordReset :=
  let afterDelete := store.filter (fun r => !(r.adminId == resetData.adminId))
  (afterDelete ++ [resetData], resetData)

/-- The table `createPasswordReset` leaves behind, spelled out. -/
theorem createPasswordReset_fst (store : ResetStore) (resetData : PasswordReset) :
    (createPasswordReset store resetData).1
      = store.filter (fun r => !(r.adminId == resetData.adminId)) ++ [resetData] := rfl

/-- `findByToken`: an empty token throws `ValidationError("Reset token is
required")`; otherwise Prisma `findFirst` with
`{ token, isUsed: false, expiresAt: { gt: now } }` returns the first matching
row or `null`. -/
def findByToken (store : ResetStore) (token : String) (now : Int) :
    Except String (Option PasswordReset) :=
  if token == "" then .error "Reset token is required"
  else .ok (store.find?
    (fun r => r.token == token && !r.isUsed && decide (r.expiresAt > now)))

end PasswordResetRepo

/-! ### Error kinds and the error envelope
(`backend/shared/utils/errors.js`, source snapshot file `src/unnamed/part_005`,
and `backend/auth-service/lib/utils.js`) -/

namespace Errors

/-- The `metadata` object attached to an error (key/value pairs).  The error
factories default it to `{}`, i.e. `some []`; `none` stands for a JS error with
no `metadata` property at all. -/
abbrev Metadata := List (String × String)

/-- An error object produced by `createErrorFactory`: `name`, `message`, `code`
and `metadata` (always present on factory-built errors). -/
structure AppError where
  name : String
  message : String
  code : String
  metadata : Option Metadata
  deriving Repr, DecidableEq

/-- Error code constants.  Modelled from the spec: the file
`backend/shared/constants/errorCodes.js` is not in the snapshot; the spec only
requires the kinds to exist ("named kinds ... via a factory pattern"), so each
code is an opaque distinct string and no claim depends on its value. -/
def ERROR_CODES : String → String := fun kind => kind

/-- `ValidationError` factory (the factory defaults `metadata` to `{}`). -/
def ValidationError (message : String) (code : String) : AppError :=
  ⟨"ValidationError", message, code, some []⟩

/-- `ConflictError` factory. -/
def ConflictError (message : String) (code : String) : AppError :=
  ⟨"ConflictError", message, code, some []⟩

/-- `NotFoundError` factory. -/
def NotFoundError (message : String) (code : String) : AppError :=
  ⟨"NotFoundError", message, code, some []⟩

/-- `BusinessLogicError` factory. -/
def BusinessLogicError (message : String) (code : String) (metadata : Metadata) :
    AppError :=
  ⟨"BusinessLogicError", message, code, some metadata⟩

/-- `DatabaseError` factory. -/
def DatabaseError (message : String) (code : String) (metadata : Metadata) :
    AppError :=
  ⟨"DatabaseError", message, code, some metadata⟩

/-- `isValidationError`. -/
def isValidationError (e : AppError) : Bool := e.name == "ValidationError"

/-- `isConflictError`. -/
def isConflictError (e : AppError) : Bool := e.name == "ConflictError"

/-- `isNotFoundError`. -/
def isNotFoundError (e : AppError) : Bool := e.name == "NotFoundError"

/-- A raw JS error as it reaches `transformError`: its structural fields drive
the dispatch (`isZodError`, a `code` starting with `"P"`, a `name` ending in
`"Error"` with a `code`, or anything else).  `zodIssues` carries the
`errors`/`issues` array when the error is a Zod error. -/
structure RawError where
  name : String
  message : String
  code : Option String
  metaTarget : Option (List String)
  isZod : Bool
  zodIssues : List (List String × String)
  metadata : Option Metadata
  deriving Repr, DecidableEq

/-- `transformZodError` (abridged to the fields the claims reach): flattens each
issue into `field: message` (path joined by `"."`, or the bare message at the
root), joins them with `"; "`, prefixes the context, and wraps the result in a
`ValidationError`; an issue-less Zod error gets the generic message. -/
def transformZodError (issues : List (List String × String)) (context : String) :
    AppError :=
  if issues.isEmpty then
    ValidationError
      (if context == "" then "Invalid input provided"
       else context ++ ": Invalid input provided")
      (ERROR_CODES "VALIDATION_ERROR")
  else
    let fieldMessages := issues.map
      (fun issue =>
        if issue.fst.isEmpty then issue.snd
        else String.intercalate "." issue.fst ++ ": " ++ issue.snd)
    let primaryMessage := String.intercalate "; " fieldMessages
    ValidationError
      (if context == "" then primaryMessage else context ++ " - " ++ primaryMessage)
      (ERROR_CODES "VALIDATION_ERROR")

/-- `transformPrismaError`: `P2002` (unique-constraint violation) becomes a
`ConflictError` named after the first violated field, `P2025` a
`NotFoundError`, `P2003` a `BusinessLogicError`; anything else a
`DatabaseError` carrying the operation and the original code and message. -/
def transformPrismaError (e : RawError) (operation : String) : AppError :=
  match e.code with
  | some "P2002" =>
    let field := (e.metaTarget.getD []).headD "field"
    ConflictError (field ++ " already exists") (ERROR_CODES "UNIQUE_VIOLATION")
  | some "P2025" => NotFoundError "Resource not found" (ERROR_CODES "RECORD_NOT_FOUND")
  | some "P2003" =>
    BusinessLogicError "Cannot delete resource with existing dependencies"
      (ERROR_CODES "BUSINESS_LOGIC_ERROR") []
  | _ =>
    DatabaseError "Database operation failed" (ERROR_CODES "DB_OPERATION_FAILED")
      [("operation", operation), ("prismaCode", (e.code.getD "")), ("message", e.message)]

/-- `error.code && typeof error.code === "string" && error.code.startsWith("P")`. -/
def hasPrismaCode (e : RawError) : Bool :=
  match e.code with
  | some c => strStartsWith c "P"
  | none => false

/-- `error.name && error.name.endsWith("Error") && error.code`. -/
def isCustomError (e : RawError) : Bool :=
  ("Error".toList.isSuffixOf e.name.toList) && e.code.isSome

/-- `transformError`: Zod errors go through `transformZodError`, Prisma errors
through `transformPrismaError`, already-transformed custom errors pass through
unchanged, and everything else becomes a `BusinessLogicError` with the original
message (or a generic one when the message is empty). -/
def transformError (e : RawError) (context : String) : AppError :=
  if e.isZod then transformZodError e.zodIssues context
  else if hasPrismaCode e then transformPrismaError e context
  else if isCustomError e then
    ⟨e.name, e.message, e.code.getD "", e.metadata⟩
  else
    BusinessLogicError
      (if e.message == "" then "An unexpected error occurred" else e.message)
      (ERROR_CODES "BUSINESS_LOGIC_ERROR") []

/-- The JSON body + HTTP status produced by `createErrorResponse`. -/
structure ErrorResponse where
  status : Nat
  success : Bool
  errorMessage : String
  errorCode : String
  errorMetadata : Option Metadata
  timestamp : String
  deriving Repr, DecidableEq

/-- `createErrorResponse` (`backend/auth-service/lib/utils.js`): transforms the
error, derives the HTTP status from the error kind (500 by default, 400 for
validation, 409 for conflict, 404 for not-found — sequential checks as in the
source), and emits the uniform envelope
`{success: false, error: {message, code, metadata?}, timestamp}`. -/
def createErrorResponse (e : RawError) (context : String) (nowIso : String) :
    ErrorResponse :=
  let transformedError := transformError e context
  let s1 : Nat := 500
  let s2 := if isValidationError transformedError then 400 else s1
  let s3 := if isConflictError transformedError then 409 else s2
  let s4 := if isNotFoundError transformedError then 404 else s3
  { status := s4
    success := false
    errorMessage := transformedError.message
    errorCode := transformedError.code
    errorMetadata := transformedError.metadata
    timestamp := nowIso }

end Errors

/-! ### Student signup form
(`frontend/src/store/studentStore.js` and `frontend/src/utils/formatters.js`) -/

namespace StudentStore

/-- `isValidEmail` tests `/^[^\s@]+@[^\s@]+\.[^\s@]+$/`: the string is
`local@domain` where `local` is non-empty, the whole string has no whitespace,
exactly one `@` occurs, and the part after the `@` contains a `.` that is
neither its first nor its last character. -/
def isValidEmail (email : String) : Bool :=
  if email == "" then false
  else
    let cs := email.toList
    cs.count '@' == 1
      && cs.all (fun c => !c.isWhitespace)
      && (let localPart := cs.takeWhile (fun c => c != '@')
          let domainPart := (cs.dropWhile (fun c => c != '@')).drop 1
          !localPart.isEmpty && ((domainPart.drop 1).dropLast.contains '.'))

/-- A character of the phone regex class `[\d\s\-()]`. -/
def isPhoneChar (c : Char) : Bool :=
  c.isDigit || c.isWhitespace || c == '-' || c == '(' || c == ')'

/-- `isValidPhone` tests `/^\+?[\d\s\-()]{10,}$/` (optional leading `+`, then at
least ten characters of the class) and additionally requires at least ten
digits after stripping every non-digit. -/
def isValidPhone (phone : String) : Bool :=
  if phone == "" then false
  else
    let cs := phone.toList
    let body := match cs with
      | '+' :: t => t
      | _ => cs
    (decide (body.length ≥ 10) && body.all isPhoneChar)
      && decide ((cs.filter Char.isDigit).length ≥ 10)

/-- The slice of the student store's state that `validateForm`/`submitSignup`
read: the selected training type and the two contact fields. -/
structure StudentFormState where
  selectedClassType : Option String
  email : String
  phone : String
  deriving Repr, DecidableEq

/-- The `errors` object written by `validateForm` (a key is `none` when the
source never sets it). -/
structure FormErrors where
  classType : Option String
  contact : Option String
  email : Option String
  phone : Option String
  deriving Repr, DecidableEq

/-- Modelled from the spec: the frontend constants file (`@utils/constants`,
`ERROR_MESSAGES`) is not in the snapshot; the claims depend only on an error
being recorded, never on its text, so the message builders are opaque. -/
def ERROR_MESSAGES_REQUIRED_FIELD (fieldName : String) : String :=
  fieldName ++ " is required"

/-- Modelled from the spec: see `ERROR_MESSAGES_REQUIRED_FIELD`. -/
def ERROR_MESSAGES_INVALID_EMAIL : String := "Invalid email"

/-- Modelled from the spec: see `ERROR_MESSAGES_REQUIRED_FIELD`. -/
def ERROR_MESSAGES_INVALID_PHONE : String := "Invalid phone"

/-- `formData.email && formData.email.trim() !== ''`. -/
def hasEmail (st : StudentFormState) : Bool :=
  st.email != "" && jsTrim st.email != ""

/-- `formData.phone && formData.phone.trim() !== ''`. -/
def hasPhone (st : StudentFormState) : Bool :=
  st.phone != "" && jsTrim st.phone != ""

/-- `validateForm`, error collection: requires a selected training type,
at least one of email/phone, and well-formed formats for whichever contact
field is present. -/
def validateFormErrors (st : StudentFormState) : FormErrors :=
  let e0 : FormErrors := ⟨none, none, none, none⟩
  let e1 :=
    if st.selectedClassType.isNone then
      { e0 with classType := some "Please select a training type" }
    else e0
  let e2 :=
    if !hasEmail st && !hasPhone st then
      { e1 with
        contact := some "Please provide either email or phone number"
        email := some (ERROR_MESSAGES_REQUIRED_FIELD "Email or Phone")
        phone := some (ERROR_MESSAGES_REQUIRED_FIELD "Email or Phone") }
    else e1
  let e3 :=
    if hasEmail st && !isValidEmail st.email then
      { e2 with email := some ERROR_MESSAGES_INVALID_EMAIL }
    else e2
  let e4 :=
    if hasPhone st && !isValidPhone st.phone then
      { e3 with phone := some ERROR_MESSAGES_INVALID_PHONE }
    else e3
  e4

/-- `validateForm`'s return value: `Object.keys(errors).length === 0`. -/
def validateForm (st : StudentFormState) : Bool :=
  let errors := validateFormErrors st
  errors.classType.isNone && errors.contact.isNone
    && errors.email.isNone && errors.phone.isNone

/-- `submitSignup`: validates first and returns `false` without calling
`createSignup` when invalid; otherwise invokes `createSignup` (whose network
outcome is the `createSignupResult` parameter) and returns `true` on success or
`false` on a caught submission error.  The second component records whether
`createSignup` was invoked. -/
def submitSignup (st : StudentFormState)
    (createSignupResult : Except String Unit) : Bool × Bool :=
  if !validateForm st then (false, false)
  else
    match createSignupResult with
    | .ok _ => (true, true)
    | .error _ => (false, true)

end StudentStore

/-! ### Admin dashboard listing
(`frontend/src/store/studentStore.js` snapshot, `useAdminStore` section) -/

namespace AdminStore

/-- One signup row as the dashboard receives it from the backend. -/
structure Signup where
  id : Nat
  classType : String
  status : String
  createdAt : Int
  reminderSentAt : Option Int
  studentEmail : Option String
  studentPhone : Option String
  deriving Repr, DecidableEq

/-- The dashboard's filter state (`null` fields are `none`). -/
structure Filters where
  classType : Option String
  status : Option String
  dateStart : Option Int
  dateEnd : Option Int
  reminderStatus : Option String
  deriving Repr, DecidableEq

/-- Modelled from the spec: the frontend constants file (`SIGNUP_STATUS`) is not
in the snapshot; its `FAILED` member is the status enum value `"FAILED"`
(visible in `formatters.js` label maps). -/
def SIGNUP_STATUS_FAILED : String := "FAILED"

/-- `if (filters.classType) filtered = filtered.filter(s => s.classType === filters.classType)`. -/
def applyClassTypeFilter (filters : Filters) (l : List Signup) : List Signup :=
  match filters.classType with
  | none => l
  | some ct => l.filter (fun s => s.classType == ct)

/-- `if (filters.status) filtered = filtered.filter(s => s.status === filters.status)`. -/
def applyStatusFilter (filters : Filters) (l : List Signup) : List Signup :=
  match filters.status with
  | none => l
  | some st => l.filter (fun s => s.status == st)

/-- Predicate of the date-range filter body: rejects signups created strictly
before `start` or strictly after `end`. -/
def dateRangePred (filters : Filters) (s : Signup) : Bool :=
  let startOk := match filters.dateStart with
    | some st => !(decide (s.createdAt < st))
    | none => true
  let endOk := match filters.dateEnd with
    | some en => !(decide (s.createdAt > en))
    | none => true
  startOk && endOk

/-- `if (filters.dateRange.start || filters.dateRange.end) filtered = filtered.filter(...)`. -/
def applyDateRangeFilter (filters : Filters) (l : List Signup) : List Signup :=
  if filters.dateStart.isSome || filters.dateEnd.isSome then
    l.filter (dateRangePred filters)
  else l

/-- Predicate of the reminder-status filter body. -/
def reminderStatusPred (reminderStatus : String) (s : Signup) : Bool :=
  if reminderStatus == "sent" then s.reminderSentAt.isSome
  else if reminderStatus == "pending" then s.reminderSentAt.isNone
  else if reminderStatus == "failed" then s.status == SIGNUP_STATUS_FAILED
  else true

/-- `if (filters.reminderStatus) filtered = filtered.filter(...)`. -/
def applyReminderStatusFilter (filters : Filters) (l : List Signup) : List Signup :=
  match filters.reminderStatus with
  | none => l
  | some rs => l.filter (reminderStatusPred rs)

/-- JS `String.prototype.includes` on character lists: some suffix of `hay`
starts with `needle`. -/
def containsSeg (hay needle : List Char) : Bool :=
  match hay with
  | [] => needle.isEmpty
  | _ :: t => needle.isPrefixOf hay || containsSeg t needle

/-- JS `hay.includes(needle)`. -/
def strIncludes (hay needle : String) : Bool :=
  containsSeg hay.toList needle.toList

/-- Predicate of the search filter: the lowercased query is a substring of the
student's email or phone (empty when absent), the class type, or the status. -/
def searchPred (query : String) (s : Signup) : Bool :=
  let email := jsToLower (s.studentEmail.getD "")
  let phone := jsToLower (s.studentPhone.getD "")
  let classType := jsToLower s.classType
  let status := jsToLower s.status
  strIncludes email query || strIncludes phone query
    || strIncludes classType query || strIncludes status query

/-- `if (searchQuery && searchQuery.trim() !== '')` then filter with the
lowercased, trimmed query. -/
def applySearch (searchQuery : String) (l : List Signup) : List Signup :=
  if searchQuery != "" && jsTrim searchQuery != "" then
    l.filter (searchPred (jsTrim (jsToLower searchQuery)))
  else l

/-- A JS value as the sort comparator sees it: a string, a number/Date
timestamp, or `null`/`undefined`. -/
inductive JSVal where
  | str (s : String)
  | num (n : Int)
  | null
  deriving Repr, DecidableEq

/-- `a[sortConfig.field]` for the columns a signup row carries; an unknown
field name is `undefined`. -/
def getField (s : Signup) : String → JSVal
  | "id" => .num s.id
  | "classType" => .str s.classType
  | "status" => .str s.status
  | "createdAt" => .num s.createdAt
  | "reminderSentAt" =>
    match s.reminderSentAt with
    | some t => .num t
    | none => .null
  | _ => .null

/-- `sortConfig` (`field`, `direction : 'asc' | 'desc'`). -/
structure SortConfig where
  field : String
  direction : String
  deriving Repr, DecidableEq

/-- Sign-valued model of `localeCompare` (code-point order stands in for the
locale order). -/
def strCompare (x y : String) : Int :=
  if x < y then -1 else if x == y then 0 else 1

/-- The sort comparator: `null`/`undefined` values sort last (`return 1` /
`return -1` before the direction is applied), strings compare by
`localeCompare`, numbers and dates by subtraction, and the difference is
negated for descending order.  (`getField` returns the same shape for both
arguments of a given field, so the mixed string/number cases, which the source
leaves at `comparison = 0`, are unreachable.) -/
def compareSignups (sc : SortConfig) (a b : Signup) : Int :=
  let aValue := getField a sc.field
  let bValue := getField b sc.field
  match aValue, bValue with
  | .null, _ => 1
  | _, .null => -1
  | .str x, .str y =>
    let comparison := strCompare x y
    if sc.direction == "asc" then comparison else -comparison
  | .num x, .num y =>
    let comparison := x - y
    if sc.direction == "asc" then comparison else -comparison
  | _, _ => 0

/-- Stable insertion of `a` into an already sorted list: `a` keeps its original
position relative to elements that compare equal. -/
def insertSortedBy (cmp : Signup → Signup → Int) (a : Signup) :
    List Signup → List Signup
  | [] => [a]
  | b :: bs =>
    if cmp a b ≤ 0 then a :: b :: bs else b :: insertSortedBy cmp a bs

/-- `filtered.sort(comparator)` as a stable insertion sort.  (JS engines'
`Array.prototype.sort` is stable; with the comparator's `null` cases its order
on all-`null` columns is engine-defined, and this model fixes one stable
order.) -/
def sortSignups (cmp : Signup → Signup → Int) : List Signup → List Signup
  | [] => []
  | a :: rest => insertSortedBy cmp a (sortSignups cmp rest)

/-- The slice of `useAdminStore` state the computed getters read. -/
structure AdminState where
  allSignups : List Signup
  currentPage : Nat
  pageSize : Nat
  filters : Filters
  searchQuery : String
  sortConfig : SortConfig
  deriving Repr, DecidableEq

/-- `getFilteredAndSearchedSignups`: the four filters in source order, then the
search filter, then the sort. -/
def getFilteredAndSearchedSignups (st : AdminState) : List Signup :=
  sortSignups (compareSignups st.sortConfig)
    (applySearch st.searchQuery
      (applyReminderStatusFilter st.filters
        (applyDateRangeFilter st.filters
          (applyStatusFilter st.filters
            (applyClassTypeFilter st.filters st.allSignups)))))

/-- `getPaginatedSignups`: `filtered.slice((page-1)*pageSize, (page-1)*pageSize + pageSize)`
(the model covers `currentPage ≥ 1`, the only pages the UI requests). -/
def getPaginatedSignups (st : AdminState) : List Signup :=
  let filtered := getFilteredAndSearchedSignups st
  let startIndex := (st.currentPage - 1) * st.pageSize
  (filtered.drop startIndex).take st.pageSize

/-- `getTotalPages`: `Math.ceil(filtered.length / pageSize)`. -/
def getTotalPages (st : AdminState) : Nat :=
  (getFilteredAndSearchedSignups st).length ⌈/⌉ st.pageSize

/-- `getTotalCount`. -/
def getTotalCount (st : AdminState) : Nat :=
  (getFilteredAndSearchedSignups st).length

end AdminStore

/-! ### Claims about the session subsystem -/

namespace AdminSessionRepo

/-- C1: for every stored session, `isSessionValid` is true exactly when the
current time is strictly before the session's `expiresAt` (so true strictly
before expiry and false strictly after), and a session that does not exist
yields false; validity is computed from `expiresAt` and `now` on every call,
not read from a stored flag. -/
theorem isSessionValid_spec (store : SessionStore) (sessionId : String) (now : Int) :
    (∀ s, findById store sessionId = some s →
        (isSessionValid store sessionId now = true ↔ now < s.expiresAt))
    ∧ (findById store sessionId = none → isSessionValid store sessionId now = false) := by
  constructor
  · intro s hs
    simp [isSessionValid, hs]
  · intro h
    simp [isSessionValid, h]

/-- Witness for C1 at a concrete store: a session checked before its expiry is
valid, after it is not, and a missing session is not. -/
theorem isSessionValid_spec_witness :
    isSessionValid [⟨"s1", "a1", 100, 0, none⟩] "s1" 50 = true
    ∧ isSessionValid [⟨"s1", "a1", 100, 0, none⟩] "s1" 150 = false
    ∧ isSessionValid [] "s1" 50 = false := by
  refine ⟨?_, ?_, ?_⟩
  · exact ((isSessionValid_spec [⟨"s1", "a1", 100, 0, none⟩] "s1" 50).1
      ⟨"s1", "a1", 100, 0, none⟩ (by decide)).mpr (by decide)
  · have h := (isSessionValid_spec [⟨"s1", "a1", 100, 0, none⟩] "s1" 150).1
      ⟨"s1", "a1", 100, 0, none⟩ (by decide)
    cases hv : isSessionValid [⟨"s1", "a1", 100, 0, none⟩] "s1" 150
    · rfl
    · exact absurd (h.mp hv) (by decide)
  · exact (isSessionValid_spec [] "s1" 50).2 (by decide)

/-- C2: the expired-session sweep keeps exactly the sessions with
`expiresAt ≥ now`, i.e. it deletes exactly those with `expiresAt < now`, and
the reported `deletedCount` is the number of deleted rows. -/
theorem cleanupExpiredSessions_spec (store : SessionStore) (now : Int) :
    (∀ s, s ∈ (cleanupExpiredSessions store now).1 ↔
        (s ∈ store ∧ ¬(s.expiresAt < now)))
    ∧ (cleanupExpiredSessions store now).2 + (cleanupExpiredSessions store now).1.length
        = store.length
    ∧ (cleanupExpiredSessions store now).2
        = (store.filter (fun s => decide (s.expiresAt < now))).length := by
  refine ⟨?_, ?_, rfl⟩
  · intro s
    simp [cleanupExpiredSessions, List.mem_filter]
  · have h := length_filter_add_length_filter_not store
      (fun s => decide (s.expiresAt < now))
    simpa [cleanupExpiredSessions] using h

/-- Witness for C2 at a concrete store: of two sessions expiring at 10 and 30,
a sweep at time 20 deletes exactly the first and reports one deletion. -/
theorem cleanupExpiredSessions_spec_witness :
    (⟨"s2", "a1", 30, 0, none⟩ ∈
        (cleanupExpiredSessions [⟨"s1", "a1", 10, 0, none⟩, ⟨"s2", "a1", 30, 0, none⟩] 20).1
      ↔ (⟨"s2", "a1", 30, 0, none⟩ ∈
          ([⟨"s1", "a1", 10, 0, none⟩, ⟨"s2", "a1", 30, 0, none⟩] : SessionStore)
        ∧ ¬((30 : Int) < 20)))
    ∧ (cleanupExpiredSessions [⟨"s1", "a1", 10, 0, none⟩, ⟨"s2", "a1", 30, 0, none⟩] 20).2
        + (cleanupExpiredSessions [⟨"s1", "a1", 10, 0, none⟩, ⟨"s2", "a1", 30, 0, none⟩] 20).1.length
        = 2 :=
  ⟨(cleanupExpiredSessions_spec [⟨"s1", "a1", 10, 0, none⟩, ⟨"s2", "a1", 30, 0, none⟩] 20).1
      ⟨"s2", "a1", 30, 0, none⟩,
   (cleanupExpiredSessions_spec [⟨"s1", "a1", 10, 0, none⟩, ⟨"s2", "a1", 30, 0, none⟩] 20).2.1⟩

/-- C3: logout-all removes exactly the sessions of the given admin (expired or
not), leaves every other admin's sessions untouched, and reports the number of
that admin's sessions that existed before the call. -/
theorem invalidateAllSessions_spec (store : SessionStore) (adminId : String) :
    (∀ s, s ∈ (invalidateAllSessions store adminId).1 ↔
        (s ∈ store ∧ s.adminId ≠ adminId))
    ∧ (∀ a, a ≠ adminId →
        (invalidateAllSessions store adminId).1.filter (fun s => s.adminId == a)
          = store.filter (fun s => s.adminId == a))
    ∧ (invalidateAllSessions store adminId).2
        = (store.filter (fun s => s.adminId == adminId)).length := by
  refine ⟨?_, ?_, rfl⟩
  · intro s
    simp [invalidateAllSessions, List.mem_filter]
  · intro a ha
    show (store.filter (fun s => !(s.adminId == adminId))).filter (fun s => s.adminId == a)
        = store.filter (fun s => s.adminId == a)
    rw [List.filter_filter]
    apply List.filter_congr
    intro s _
    by_cases h : s.adminId = a
    · simp [h, ha]
    · simp [h]

/-- Witness for C3 at a concrete store: logging out admin `a1` removes its two
sessions, keeps `a2`'s session, and reports two deletions. -/
theorem invalidateAllSessions_spec_witness :
    (⟨"s3", "a2", 99, 0, none⟩ ∈
        (invalidateAllSessions
          [⟨"s1", "a1", 10, 0, none⟩, ⟨"s2", "a1", 30, 0, none⟩, ⟨"s3", "a2", 99, 0, none⟩]
          "a1").1
      ↔ (⟨"s3", "a2", 99, 0, none⟩ ∈
          ([⟨"s1", "a1", 10, 0, none⟩, ⟨"s2", "a1", 30, 0, none⟩, ⟨"s3", "a2", 99, 0, none⟩] :
            SessionStore)
        ∧ "a2" ≠ "a1"))
    ∧ (invalidateAllSessions
        [⟨"s1", "a1", 10, 0, none⟩, ⟨"s2", "a1", 30, 0, none⟩, ⟨"s3", "a2", 99, 0, none⟩]
        "a1").2 = 2 := by
  constructor
  · exact (invalidateAllSessions_spec
      [⟨"s1", "a1", 10, 0, none⟩, ⟨"s2", "a1", 30, 0, none⟩, ⟨"s3", "a2", 99, 0, none⟩]
      "a1").1 ⟨"s3", "a2", 99, 0, none⟩
  · rw [(invalidateAllSessions_spec
      [⟨"s1", "a1", 10, 0, none⟩, ⟨"s2", "a1", 30, 0, none⟩, ⟨"s3", "a2", 99, 0, none⟩]
      "a1").2.2]
    decide

/-- C7 counterexample: when the underlying lookup fails, `isSessionValid` and
`validateSessionIP` do **not** propagate the error — both catch it and return a
normal `false`, contradicting the claim that no session operation converts a
failure into a normal return value. -/
theorem session_lookup_error_swallowed_cex :
    isSessionValidE (.error (.failure "connection lost")) 0 = .ok false
    ∧ validateSessionIP (.error (.failure "connection lost")) "10.0.0.1" = .ok false
    ∧ isSessionValidE (.error (.failure "connection lost")) 0
        ≠ .error (.failure "connection lost") :=
  ⟨rfl, rfl, by simp [isSessionValidE]⟩

/-- C7 amended: failures inside `isSessionValid` and `validateSessionIP` are
caught (and logged) and turned into the normal return value `false` — they are
the two session-lifecycle operations that do not re-throw. -/
theorem session_lookup_failure_returns_false (e : DbFailure) (now : Int)
    (currentIP : String) :
    isSessionValidE (.error e) now = .ok false
    ∧ validateSessionIP (.error e) currentIP = .ok false :=
  ⟨rfl, rfl⟩

/-- C9: the counts returned by `getAdminSessions` partition the returned list:
`total` is its length, `active` counts `expiresAt > now`, `expired` counts
`expiresAt ≤ now`, `active + expired = total`, every returned session is in
exactly one of the two classes, and with `includeExpired = false` every
returned session satisfies `expiresAt > now`. -/
theorem getAdminSessions_spec (store : SessionStore) (adminId : String)
    (includeExpired : Bool) (now : Int) :
    (getAdminSessions store adminId includeExpired now).2.total
        = (getAdminSessions store adminId includeExpired now).1.length
    ∧ (getAdminSessions store adminId includeExpired now).2.active
        = ((getAdminSessions store adminId includeExpired now).1.filter
            (fun s => decide (s.expiresAt > now))).length
    ∧ (getAdminSessions store adminId includeExpired now).2.expired
        = ((getAdminSessions store adminId includeExpired now).1.filter
            (fun s => decide (s.expiresAt ≤ now))).length
    ∧ (getAdminSessions store adminId includeExpired now).2.active
        + (getAdminSessions store adminId includeExpired now).2.expired
        = (getAdminSessions store adminId includeExpired now).2.total
    ∧ (∀ s ∈ (getAdminSessions store adminId includeExpired now).1,
        (now < s.expiresAt ∨ s.expiresAt ≤ now)
          ∧ ¬(now < s.expiresAt ∧ s.expiresAt ≤ now))
    ∧ (includeExpired = false →
        ∀ s ∈ (getAdminSessions store adminId includeExpired now).1,
          now < s.expiresAt) := by
  refine ⟨rfl, rfl, rfl, ?_, ?_, ?_⟩
  · have hpt : ∀ s : AdminSession,
        (decide (s.expiresAt ≤ now)) = !(decide (s.expiresAt > now)) := by
      intro s
      by_cases h : s.expiresAt ≤ now
      · simp [h, Int.not_lt.mpr h]
      · simp [h, Int.lt_of_not_ge h]
    show ((getAdminSessions store adminId includeExpired now).1.filter
          (fun s => decide (s.expiresAt > now))).length
        + ((getAdminSessions store adminId includeExpired now).1.filter
          (fun s => decide (s.expiresAt ≤ now))).length
        = (getAdminSessions store adminId includeExpired now).1.length
    rw [List.filter_congr (fun s _ => hpt s)]
    exact length_filter_add_length_filter_not _ _
  · intro s _
    constructor
    · omega
    · omega
  · intro hIE s hs
    simp only [getAdminSessions] at hs
    rw [mem_sortByCreatedAtDesc, List.mem_filter, hIE] at hs
    have h2 := hs.2
    simp only [Bool.false_or, Bool.and_eq_true, decide_eq_true_eq] at h2
    exact h2.2

/-- Witness for C9 at a concrete store: admin `a1` at time 20 with
`includeExpired = false` gets only its unexpired session. -/
theorem getAdminSessions_spec_witness :
    ∀ s ∈ (getAdminSessions
        [⟨"s1", "a1", 10, 0, none⟩, ⟨"s2", "a1", 30, 5, none⟩, ⟨"s3", "a2", 99, 9, none⟩]
        "a1" false 20).1, (20 : Int) < s.expiresAt :=
  (getAdminSessions_spec
    [⟨"s1", "a1", 10, 0, none⟩, ⟨"s2", "a1", 30, 5, none⟩, ⟨"s3", "a2", 99, 9, none⟩]
    "a1" false 20).2.2.2.2.2 rfl

end AdminSessionRepo

/-! ### Claims about password resets and the error envelope -/

namespace PasswordResetRepo

/-- C8: requesting a new password-reset token first deletes every existing
reset row of that admin and then creates exactly one new row (other admins'
rows are untouched, and the at-most-one-per-admin invariant is preserved); and
`findByToken` only ever returns a stored row that carries the requested token,
is unused and has its expiry strictly in the future — when no such row exists
it returns `null`. -/
theorem passwordReset_spec (store : ResetStore) (resetData : PasswordReset)
    (token : String) (now : Int) :
    ((createPasswordReset store resetData).1.filter
        (fun r => r.adminId == resetData.adminId) = [resetData])
    ∧ (∀ a, a ≠ resetData.adminId →
        (createPasswordReset store resetData).1.filter (fun r => r.adminId == a)
          = store.filter (fun r => r.adminId == a))
    ∧ ((∀ a, (store.filter (fun r => r.adminId == a)).length ≤ 1) →
        ∀ a, ((createPasswordReset store resetData).1.filter
          (fun r => r.adminId == a)).length ≤ 1)
    ∧ (∀ r, findByToken store token now = .ok (some r) →
        r.token = token ∧ r.isUsed = false ∧ now < r.expiresAt ∧ r ∈ store)
    ∧ ((∀ r ∈ store, ¬(r.token = token ∧ r.isUsed = false ∧ now < r.expiresAt)) →
        token ≠ "" → findByToken store token now = .ok none) := by
  have hown : (createPasswordReset store resetData).1.filter
      (fun r => r.adminId == resetData.adminId) = [resetData] := by
    rw [createPasswordReset_fst, List.filter_append, List.filter_filter]
    rw [List.filter_congr (l := store)
      (q := fun _ => false) (fun r _ => by cases h : r.adminId == resetData.adminId <;> simp [h])]
    simp
  have hother : ∀ a, a ≠ resetData.adminId →
      (createPasswordReset store resetData).1.filter (fun r => r.adminId == a)
        = store.filter (fun r => r.adminId == a) := by
    intro a ha
    rw [createPasswordReset_fst, List.filter_append, List.filter_filter]
    have hres : (resetData.adminId == a) = false :=
      beq_eq_false_iff_ne.mpr (fun h => ha h.symm)
    rw [List.filter_congr (l := store)
      (q := fun r => r.adminId == a)
      (fun r _ => by
        cases h : r.adminId == a
        · simp [h]
        · have hra : r.adminId = a := by simpa using h
          have hrd : (r.adminId == resetData.adminId) = false :=
            beq_eq_false_iff_ne.mpr (by rw [hra]; exact ha)
          simp [h, hrd])]
    simp [List.filter_cons, hres]
  refine ⟨hown, hother, ?_, ?_, ?_⟩
  · intro hinv a
    by_cases ha : a = resetData.adminId
    · rw [ha, hown]
      simp
    · rw [hother a ha]
      exact hinv a
  · intro r hr
    by_cases ht : token == ""
    · simp [findByToken, ht] at hr
    · simp only [findByToken, ht, Bool.false_eq_true, if_false, Except.ok.injEq] at hr
      have hp := List.find?_some hr
      have hm := List.mem_of_find?_eq_some hr
      simp only [Bool.and_eq_true, beq_iff_eq, Bool.not_eq_true', decide_eq_true_eq] at hp
      exact ⟨hp.1.1, hp.1.2, hp.2, hm⟩
  · intro hnone ht
    have ht' : (token == "") = false := by simpa using ht
    simp only [findByToken, ht', Bool.false_eq_true, if_false, Except.ok.injEq]
    rw [List.find?_eq_none]
    intro r hr
    have := hnone r hr
    intro hp
    simp only [Bool.and_eq_true, beq_iff_eq, Bool.not_eq_true', decide_eq_true_eq] at hp
    exact this ⟨hp.1.1, hp.1.2, hp.2⟩

/-- Witness for C8 at a concrete table: creating a reset for admin `a1`
supersedes its old row, leaves `a2`'s row, preserves the invariant, and
`findByToken` finds exactly the fresh unused unexpired token. -/
theorem passwordReset_spec_witness :
    ((createPasswordReset
        [⟨"r1", "a1", "e1", "t1", 50, false, 1⟩, ⟨"r2", "a2", "e2", "t2", 50, false, 2⟩]
        ⟨"r3", "a1", "e1", "t3", 90, false, 3⟩).1.filter
        (fun r => r.adminId == "a1") = [⟨"r3", "a1", "e1", "t3", 90, false, 3⟩])
    ∧ ((⟨"r2", "a2", "e2", "t2", 50, false, 2⟩ : PasswordReset).token = "t2"
        ∧ (⟨"r2", "a2", "e2", "t2", 50, false, 2⟩ : PasswordReset).isUsed = false
        ∧ (10 : Int) < 50
        ∧ (⟨"r2", "a2", "e2", "t2", 50, false, 2⟩ : PasswordReset)
            ∈ ([⟨"r1", "a1", "e1", "t1", 50, false, 1⟩,
                ⟨"r2", "a2", "e2", "t2", 50, false, 2⟩] : ResetStore)) := by
  constructor
  · exact (passwordReset_spec
      [⟨"r1", "a1", "e1", "t1", 50, false, 1⟩, ⟨"r2", "a2", "e2", "t2", 50, false, 2⟩]
      ⟨"r3", "a1", "e1", "t3", 90, false, 3⟩ "t2" 10).1
  · exact (passwordReset_spec
      [⟨"r1", "a1", "e1", "t1", 50, false, 1⟩, ⟨"r2", "a2", "e2", "t2", 50, false, 2⟩]
      ⟨"r3", "a1", "e1", "t3", 90, false, 3⟩ "t2" 10).2.2.2.1
      ⟨"r2", "a2", "e2", "t2", 50, false, 2⟩ (by rfl)

end PasswordResetRepo

namespace Errors

/-- A Prisma unique-constraint error as it reaches `transformError`: code
`P2002` with the violated columns in `meta.target`. -/
def p2002Raw (message : String) (target : Option (List String))
    (metadata : Option Metadata) : RawError :=
  ⟨"PrismaClientKnownRequestError", message, some "P2002", target, false, [], metadata⟩

/-- C6: a Prisma `P2002` unique-constraint violation is translated into a
`ConflictError` (named after the first violated field), and
`createErrorResponse` surfaces every such error as HTTP 409 inside the uniform
envelope: `success = false`, `error.message`/`error.code` from the transformed
error, and the call-time timestamp. -/
theorem p2002_conflict_409 (message context nowIso : String)
    (target : Option (List String)) (metadata : Option Metadata) :
    (transformError (p2002Raw message target metadata) context).name = "ConflictError"
    ∧ (createErrorResponse (p2002Raw message target metadata) context nowIso).status = 409
    ∧ (createErrorResponse (p2002Raw message target metadata) context nowIso).success = false
    ∧ (createErrorResponse (p2002Raw message target metadata) context nowIso).errorMessage
        = ((target.getD []).headD "field") ++ " already exists"
    ∧ (createErrorResponse (p2002Raw message target metadata) context nowIso).errorCode
        = ERROR_CODES "UNIQUE_VIOLATION"
    ∧ (createErrorResponse (p2002Raw message target metadata) context nowIso).timestamp
        = nowIso :=
  ⟨rfl, rfl, rfl, rfl, rfl, rfl⟩

end Errors

/-! ### Claims about the student form -/

namespace StudentStore

/-- C5: a submission whose email and phone are both empty or whitespace-only is
rejected by validation before any persistence call: `validateForm` records the
contact error and returns false, and `submitSignup` returns `false` without
invoking `createSignup` (second component `false`), whatever the network
outcome would have been. -/
theorem submitSignup_rejects_missing_contact (st : StudentFormState)
    (createSignupResult : Except String Unit)
    (he : jsTrim st.email = "") (hp : jsTrim st.phone = "") :
    (validateFormErrors st).contact = some "Please provide either email or phone number"
    ∧ validateForm st = false
    ∧ submitSignup st createSignupResult = (false, false) := by
  have hhe : hasEmail st = false := by simp [hasEmail, he]
  have hhp : hasPhone st = false := by simp [hasPhone, hp]
  have hcontact : (validateFormErrors st).contact
      = some "Please provide either email or phone number" := by
    simp only [validateFormErrors, hhe, hhp]
    cases h : st.selectedClassType.isNone <;> simp
  have hvf : validateForm st = false := by
    simp [validateForm, hcontact]
  exact ⟨hcontact, hvf, by simp [submitSignup, hvf]⟩

/-- Witness for C5 at a concrete form state: a whitespace email and empty phone
yield the contact error and a rejected submission with no `createSignup` call,
even though the network call would have succeeded. -/
theorem submitSignup_rejects_missing_contact_witness :
    (validateFormErrors ⟨some "TYPE_1", " ", ""⟩).contact
        = some "Please provide either email or phone number"
    ∧ validateForm ⟨some "TYPE_1", " ", ""⟩ = false
    ∧ submitSignup ⟨some "TYPE_1", " ", ""⟩ (.ok ()) = (false, false) :=
  submitSignup_rejects_missing_contact ⟨some "TYPE_1", " ", ""⟩ (.ok ())
    (by decide) (by decide)

end StudentStore

/-! ### Claims about the dashboard filters and pagination -/

namespace AdminStore

/-- The four dashboard filters of `getFilteredAndSearchedSignups`. -/
inductive FilterKind where
  | classType
  | status
  | dateRange
  | reminderStatus
  deriving Repr, DecidableEq

/-- Dispatch a `FilterKind` to the corresponding filter stage. -/
def applyFilter : FilterKind → Filters → List Signup → List Signup
  | .classType => applyClassTypeFilter
  | .status => applyStatusFilter
  | .dateRange => applyDateRangeFilter
  | .reminderStatus => applyReminderStatusFilter

/-- A conditional filter: skipped (`none`) or a pointwise `Array.filter`. -/
def condFilter (p : Option (Signup → Bool)) (l : List Signup) : List Signup :=
  match p with
  | none => l
  | some pred => l.filter pred

/-- The predicate each filter stage applies, when its filter is set. -/
def filterPred : FilterKind → Filters → Option (Signup → Bool)
  | .classType, f => f.classType.map (fun ct s => s.classType == ct)
  | .status, f => f.status.map (fun stv s => s.status == stv)
  | .dateRange, f =>
    if f.dateStart.isSome || f.dateEnd.isSome then some (dateRangePred f) else none
  | .reminderStatus, f => f.reminderStatus.map reminderStatusPred

theorem applyFilter_eq_condFilter (k : FilterKind) (f : Filters) (l : List Signup) :
    applyFilter k f l = condFilter (filterPred k f) l := by
  cases k
  · cases h : f.classType <;>
      simp [applyFilter, applyClassTypeFilter, condFilter, filterPred, h]
  · cases h : f.status <;>
      simp [applyFilter, applyStatusFilter, condFilter, filterPred, h]
  · by_cases h : (f.dateStart.isSome || f.dateEnd.isSome) = true <;>
      simp [applyFilter, applyDateRangeFilter, condFilter, filterPred, h]
  · cases h : f.reminderStatus <;>
      simp [applyFilter, applyReminderStatusFilter, condFilter, filterPred, h]

theorem condFilter_comm (p q : Option (Signup → Bool)) (l : List Signup) :
    condFilter p (condFilter q l) = condFilter q (condFilter p l) := by
  cases p with
  | none => simp [condFilter]
  | some pp =>
    cases q with
    | none => simp [condFilter]
    | some qq =>
      show (l.filter qq).filter pp = (l.filter pp).filter qq
      rw [List.filter_filter, List.filter_filter]
      exact List.filter_congr (fun a _ => Bool.and_comm _ _)

/-- C4: any two of the four dashboard filters commute — applying them in either
order produces the same list (hence the same result set); in particular class
type before status equals status before class type. -/
theorem filters_commute (k₁ k₂ : FilterKind) (f : Filters) (l : List Signup) :
    applyFilter k₁ f (applyFilter k₂ f l) = applyFilter k₂ f (applyFilter k₁ f l) := by
  rw [applyFilter_eq_condFilter, applyFilter_eq_condFilter k₂,
    applyFilter_eq_condFilter k₁, applyFilter_eq_condFilter k₂]
  exact condFilter_comm _ _ l

/-- Concatenating the `pageSize`-chunks of a list, one per index in
`range ⌈length / pageSize⌉`, recovers the list. -/
theorem chunks_aux {α : Type} (k : Nat) (hk : 0 < k) :
    ∀ (n : Nat) (l : List α), l.length ≤ n →
      (List.range ((l.length + k - 1) / k)).flatMap
        (fun i => (l.drop (i * k)).take k) = l := by
  intro n
  induction n with
  | zero =>
    intro l h
    have hl : l = [] := List.eq_nil_of_length_eq_zero (Nat.le_zero.mp h)
    subst hl
    have h0 : (([] : List α).length + k - 1) / k = 0 := Nat.div_eq_of_lt (by simp; omega)
    rw [h0]
    simp
  | succ n ih =>
    intro l h
    cases l with
    | nil =>
      have h0 : (([] : List α).length + k - 1) / k = 0 := Nat.div_eq_of_lt (by simp; omega)
      rw [h0]
      simp
    | cons a tl =>
      have hceil : ((a :: tl).length + k - 1) / k = tl.length / k + 1 := by
        have h1 : (a :: tl).length + k - 1 = tl.length + k := by
          simp only [List.length_cons]
          omega
        rw [h1, Nat.add_div_right _ hk]
      rw [hceil, List.range_succ_eq_map, List.flatMap_cons, List.flatMap_map]
      have hfun : (fun i => (((a :: tl).drop ((i + 1) * k)).take k))
          = (fun i => ((((a :: tl).drop k).drop (i * k)).take k)) := by
        funext i
        rw [List.drop_drop]
        have : i + 1 = 1 + i := by omega
        rw [this, Nat.add_mul, Nat.one_mul]
      have hlen' : ((a :: tl).drop k).length ≤ n := by
        simp only [List.length_cons] at h
        simp only [List.length_drop, List.length_cons]
        omega
      have hceil' : tl.length / k = (((a :: tl).drop k).length + k - 1) / k := by
        simp only [List.length_drop, List.length_cons]
        by_cases hk2 : k ≤ tl.length + 1
        · have : tl.length + 1 - k + k - 1 = tl.length := by omega
          rw [this]
        · have h1 : tl.length + 1 - k = 0 := by omega
          rw [h1]
          rw [Nat.div_eq_of_lt (by omega), Nat.div_eq_of_lt (by omega)]
      have hIH := ih ((a :: tl).drop k) hlen'
      calc ((a :: tl).drop (0 * k)).take k
            ++ (List.range (tl.length / k)).flatMap
                (fun i => (((a :: tl).drop ((i + 1) * k)).take k))
          = (a :: tl).take k
            ++ (List.range ((((a :: tl).drop k).length + k - 1) / k)).flatMap
                (fun i => ((((a :: tl).drop k).drop (i * k)).take k)) := by
            rw [hfun, ← hceil']
            simp
        _ = (a :: tl).take k ++ (a :: tl).drop k := by rw [hIH]
        _ = a :: tl := List.take_append_drop _ _

/-- C10: for a positive page size, concatenating `getPaginatedSignups` over
pages `1 .. getTotalPages` yields exactly `getFilteredAndSearchedSignups` in
order, every page holds at most `pageSize` elements, and `getTotalPages` is the
ceiling of the filtered count over the page size (the least page count whose
capacity covers the filtered list). -/
theorem pagination_spec (st : AdminState) (hps : 0 < st.pageSize) :
    ((List.range (getTotalPages st)).flatMap
        (fun i => getPaginatedSignups { st with currentPage := i + 1 }))
      = getFilteredAndSearchedSignups st
    ∧ (∀ page, (getPaginatedSignups { st with currentPage := page }).length ≤ st.pageSize)
    ∧ (getFilteredAndSearchedSignups st).length ≤ st.pageSize * getTotalPages st
    ∧ (∀ c, (getFilteredAndSearchedSignups st).length ≤ st.pageSize * c →
        getTotalPages st ≤ c) := by
  obtain ⟨allSignups, currentPage, pageSize, filters, searchQuery, sortConfig⟩ := st
  simp only at hps
  refine ⟨?_, ?_, ?_, ?_⟩
  · have h1 : ∀ i : Nat,
        getPaginatedSignups
          ⟨allSignups, i + 1, pageSize, filters, searchQuery, sortConfig⟩
        = ((getFilteredAndSearchedSignups
            ⟨allSignups, currentPage, pageSize, filters, searchQuery, sortConfig⟩).drop
              (i * pageSize)).take pageSize := by
      intro i
      simp [getPaginatedSignups]
      rfl
    have h2 : getTotalPages
          ⟨allSignups, currentPage, pageSize, filters, searchQuery, sortConfig⟩
        = ((getFilteredAndSearchedSignups
            ⟨allSignups, currentPage, pageSize, filters, searchQuery, sortConfig⟩).length
              + pageSize - 1) / pageSize := rfl
    rw [congrArg (List.flatMap _) (funext h1), h2]
    exact chunks_aux pageSize hps _ _ le_rfl
  · intro page
    have h1 : getPaginatedSignups
          ⟨allSignups, page, pageSize, filters, searchQuery, sortConfig⟩
        = ((getFilteredAndSearchedSignups
            ⟨allSignups, currentPage, pageSize, filters, searchQuery, sortConfig⟩).drop
              ((page - 1) * pageSize)).take pageSize := rfl
    rw [h1, List.length_take]
    exact Nat.min_le_left _ _
  · exact (ceilDiv_le_iff_le_mul hps).mp le_rfl
  · intro c h
    exact (ceilDiv_le_iff_le_mul hps).mpr h

/-- Witness for C10 at a concrete dashboard state: three signups, page size
two; pages 1 and 2 concatenate to the filtered-and-sorted list. -/
theorem pagination_spec_witness :
    ((List.range (getTotalPages
        ⟨[⟨1, "TYPE_1", "PENDING", 5, none, none, none⟩,
          ⟨2, "TYPE_2", "SENT", 3, some 9, none, none⟩,
          ⟨3, "TYPE_1", "PENDING", 7, none, none, none⟩], 1, 2,
          ⟨none, none, none, none, none⟩, "", ⟨"createdAt", "desc"⟩⟩)).flatMap
        (fun i => getPaginatedSignups
          { (⟨[⟨1, "TYPE_1", "PENDING", 5, none, none, none⟩,
              ⟨2, "TYPE_2", "SENT", 3, some 9, none, none⟩,
              ⟨3, "TYPE_1", "PENDING", 7, none, none, none⟩], 1, 2,
              ⟨none, none, none, none, none⟩, "", ⟨"createdAt", "desc"⟩⟩ : AdminState)
            with currentPage := i + 1 }))
      = getFilteredAndSearchedSignups
          ⟨[⟨1, "TYPE_1", "PENDING", 5, none, none, none⟩,
            ⟨2, "TYPE_2", "SENT", 3, some 9, none, none⟩,
            ⟨3, "TYPE_1", "PENDING", 7, none, none, none⟩], 1, 2,
            ⟨none, none, none, none, none⟩, "", ⟨"createdAt", "desc"⟩⟩ :=
  (pagination_spec
    ⟨[⟨1, "TYPE_1", "PENDING", 5, none, none, none⟩,
      ⟨2, "TYPE_2", "SENT", 3, some 9, none, none⟩,
      ⟨3, "TYPE_1", "PENDING", 7, none, none, none⟩], 1, 2,
      ⟨none, none, none, none, none⟩, "", ⟨"createdAt", "desc"⟩⟩ (by decide)).1

end AdminStore

end QRClassReminder
